import Mathlib

/-!
Shallow embedding of the Dragonfly2 peer task pull engine
(client/daemon/peer/peertask_base.go, peertask_file.go, peertask_dummy.go),
with theorems settling the frozen claims about it.

State is passed explicitly; the sequential embedding reads each Go function
as an atomic step on the task state that additionally emits a trace of
observable events (stream sends, failed-piece pushes, progress events,
callback invocations, channel closes).
-/

namespace Dragonfly

/-- Modelled from the spec: the rpc code set of `internal/dfcodes` (§6.1 of the
spec lists the codes consumed); the package itself is not under src/. Codes are
distinct named values; `CodeNotSet` stands for the zero value of the Go `base.Code`
type, which is the `failedCodeNotSet = 0` sentinel of peertask_base.go and is
distinct from every named dfcodes constant. -/
inductive Code where
  | CodeNotSet
  | Success
  | ClientError
  | ClientContextCanceled
  | ClientScheduleTimeout
  | ClientPieceRequestFail
  | ClientRequestLimitFail
  | ClientWaitPieceReady
  | SchedNeedBackSource
  | SchedError
  | SchedPeerGone
  | CdnError
  | CdnTaskNotFound
  | CdnTaskRegistryFail
  | CdnTaskDownloadFail
  | ResourceLacked
  | BadRequest
  | PeerTaskNotFound
  | UnknownError
  | RequestTimeOut
deriving DecidableEq

/-- One destination peer inside a scheduler `PeerPacket`
(scheduler.PeerPacket_DestPeer). -/
structure DestPeer where
  ip : String
  rpcPort : Int
  peerId : String
deriving DecidableEq

/-- A scheduler-to-peer packet (scheduler.PeerPacket). `mainPeer` and
`stealPeers` are nilable in Go, hence `Option`; a nil slice and an empty
slice are distinguished, as the Go guard compares against nil. -/
structure PeerPacket where
  taskId : String
  code : Code
  mainPeer : Option DestPeer
  stealPeers : Option (List DestPeer)
  parallelCount : Int
deriving DecidableEq

/-- Piece metadata (base.PieceInfo). -/
structure PieceInfo where
  pieceNum : Int
  rangeStart : Int
  rangeSize : Int
deriving DecidableEq

/-- A piece result reported to the scheduler (scheduler.PieceResult). -/
structure PieceResult where
  taskId : String
  srcPid : String
  dstPid : String
  pieceNum : Int
  success : Bool
  code : Code
  finishedCount : Int
deriving DecidableEq

/-- Argument of ReportPieceResult (peertask_base.go, type pieceTaskResult). -/
structure PieceTaskResult where
  piece : PieceInfo
  pieceResult : PieceResult
deriving DecidableEq

/-- Error value carrying an rpc code (internal/dferrors.DfError). -/
structure DfError where
  code : Code
  message : String
deriving DecidableEq

/-- Modelled from the spec: `PieceBitmap` (§4.1) — the Bitmap type used by the
peer package is not under src/; the spec gives `set` (idempotent), `is_set`,
and `count` (= popcount). Modelled as a finite set of piece numbers. -/
abbrev Bitmap := Finset Int

/-- NewBitmap returns the empty bitmap (no bits set). -/
def NewBitmap : Bitmap := ∅

/-- Bitmap.IsSet reports whether bit `i` is set. -/
def Bitmap.IsSet (b : Bitmap) (i : Int) : Bool := decide (i ∈ b)

/-- Bitmap.Set sets bit `i` (idempotent). -/
def Bitmap.Set (b : Bitmap) (i : Int) : Bitmap := insert i b

/-- Bitmap.Settled returns the number of set bits. -/
def Bitmap.Settled (b : Bitmap) : Int := (b.card : Int)

/-- Constant failedReasonNotSet of peertask_base.go. -/
def failedReasonNotSet : String := "unknown"

/-- Constant failedCodeNotSet = 0 of peertask_base.go (the zero `base.Code`). -/
def failedCodeNotSet : Code := Code.CodeNotSet

/-- Constant reasonScheduleTimeout of peertask_base.go. -/
def reasonScheduleTimeout : String := "wait first peer packet from scheduler timeout"

/-- Constant reasonReScheduleTimeout of peertask_base.go. -/
def reasonReScheduleTimeout : String := "wait more available peers from scheduler timeout"

/-- Constant reasonContextCanceled of peertask_base.go; this is also the text of
the Go context.Canceled error, the value of `ctx.Err().Error()` after a cancel. -/
def reasonContextCanceled : String := "context canceled"

/-- Constant reasonPeerGoneFromScheduler of peertask_base.go. -/
def reasonPeerGoneFromScheduler : String := "scheduler says client should disconnect"

/-- The mutable per-task state of `peerTask`/`filePeerTask` that the claims
concern (peertask_base.go struct peerTask, plus the one-shot latch and the
done/progress channel states of peertask_file.go). -/
structure TaskState where
  taskId : String
  peerId : String
  needBackSource : Bool
  totalPiece : Int
  contentLength : Int
  completedLength : Int
  failedReason : String
  failedCode : Code
  readyPieces : Bitmap
  requestedPieces : Bitmap
  peerPacket : Option PeerPacket
  pieceParallelCount : Int
  disableAutoBackSource : Bool
  onceFired : Bool
  doneClosed : Bool
  peerTaskDone : Bool
  cancelled : Bool
  cbDoneFails : Bool
deriving DecidableEq

/-- The initial state a `filePeerTask` is created with (peertask_file.go,
newFilePeerTask lines 164-195): empty bitmaps, completedLength 0,
contentLength and totalPiece -1, failedReason "unknown", and — notably —
failedCode initialized to dfcodes.UnknownError. `cbDoneFails` models whether
the environment's `callback.Done` will fail; it is false by default. -/
def newFilePeerTaskState (taskId peerId : String)
    (needBackSource disableAutoBackSource : Bool) : TaskState :=
  { taskId := taskId
    peerId := peerId
    needBackSource := needBackSource
    totalPiece := -1
    contentLength := -1
    completedLength := 0
    failedReason := failedReasonNotSet
    failedCode := Code.UnknownError
    readyPieces := NewBitmap
    requestedPieces := NewBitmap
    peerPacket := none
    pieceParallelCount := 0
    disableAutoBackSource := disableAutoBackSource
    onceFired := false
    doneClosed := false
    peerTaskDone := false
    cancelled := false
    cbDoneFails := false }

/-- Observable events of one sequential step: sends on the scheduler stream,
pushes on failedPieceCh, progress events, callback invocations, the explicit
backSource() call, the one-shot bodies starting, and closing the done channel. -/
inductive Event where
  | send (pr : PieceResult)
  | pushFailed (n : Int)
  | progress (done success : Bool) (code : Code) (completed : Int)
  | callbackDone
  | callbackFail (code : Code) (reason : String)
  | backSourceCall
  | finishBodyRun
  | cleanBodyRun
  | closeDone
deriving DecidableEq

/-- isCompleted of peertask_base.go: completedLength == contentLength
(the ready-piece count is not consulted). -/
def isCompleted (s : TaskState) : Bool := decide (s.completedLength = s.contentLength)

/-- Modelled from the spec: the end-of-stream sentinel `PieceResult` with
`piece_num = EndOfPiece = -1` (§4.3.6 and glossary); the scheduler rpc helper
NewEndPieceResult is not under src/. It carries the finished count passed by
the caller. -/
def NewEndPieceResult (taskId peerId : String) (finishedCount : Int) : PieceResult :=
  { taskId := taskId
    srcPid := peerId
    dstPid := ""
    pieceNum := -1
    success := true
    code := Code.Success
    finishedCount := finishedCount }

/-- finish of peertask_file.go: under the one-shot, send the end piece result
with the current settled count, run callback.Done (its failure only changes the
final progress state), emit the terminal progress event, and close `done`. -/
def finish (s : TaskState) : TaskState × List Event :=
  if s.onceFired then (s, [])
  else
    let s1 := { s with onceFired := true }
    let endResult := NewEndPieceResult s.taskId s.peerId s.readyPieces.Settled
    let ok := !s.cbDoneFails
    let code := if s.cbDoneFails then Code.ClientError else Code.Success
    let s2 := { s1 with peerTaskDone := true, doneClosed := true }
    (s2, [Event.finishBodyRun, Event.send endResult, Event.callbackDone,
          Event.progress true ok code s.completedLength, Event.closeDone])

/-- cleanUnfinished of peertask_file.go: always cancels the context (deferred),
and under the one-shot sends the end piece result, emits the terminal failed
progress event with the recorded failedCode/failedReason, runs callback.Fail,
and closes `done`. -/
def cleanUnfinished (s : TaskState) : TaskState × List Event :=
  let sc := { s with cancelled := true }
  if sc.onceFired then (sc, [])
  else
    let s1 := { sc with onceFired := true }
    let endResult := NewEndPieceResult s.taskId s.peerId s.readyPieces.Settled
    let s2 := { s1 with peerTaskDone := true, doneClosed := true }
    (s2, [Event.cleanBodyRun, Event.send endResult,
          Event.progress true false s.failedCode s.completedLength,
          Event.callbackFail s.failedCode s.failedReason, Event.closeDone])

/-- ReportPieceResult of peertask_file.go (lines 219-274). On failure: send the
result with finishedCount = current settled count, push the piece number to
failedPieceCh, mutate nothing. On success with the ready bit already set: do
nothing. Otherwise, under the write lock, set the ready bit and add the piece's
RangeSize to completedLength, then send the result with the new settled count,
emit a non-terminal progress event, and call finish() when now completed. -/
def reportPieceResult (s : TaskState) (r : PieceTaskResult) : TaskState × List Event :=
  if r.pieceResult.success = false then
    (s, [Event.send { r.pieceResult with finishedCount := s.readyPieces.Settled },
         Event.pushFailed r.pieceResult.pieceNum])
  else if s.readyPieces.IsSet r.pieceResult.pieceNum then
    (s, [])
  else
    let s1 := { s with
      readyPieces := s.readyPieces.Set r.pieceResult.pieceNum
      completedLength := s.completedLength + r.piece.rangeSize }
    let sent := { r.pieceResult with finishedCount := s1.readyPieces.Settled }
    let evs := [Event.send sent,
                Event.progress false true r.pieceResult.code s1.completedLength]
    if isCompleted s1 then
      let f := finish s1
      (f.1, evs ++ f.2)
    else
      (s1, evs)

/-- Reason string fmt.Sprintf("receive exit peer packet with code %d", ...) of
isExitPeerPacketCode; the numeric code values live outside src/, so the format
argument is elided. -/
def exitPacketReason : String := "receive exit peer packet with code"

/-- isExitPeerPacketCode of peertask_base.go (lines 297-320): for the 1xxx codes
ResourceLacked, BadRequest, PeerTaskNotFound, UnknownError, RequestTimeOut, the
5xxx codes SchedError and SchedPeerGone, and the 6xxx codes CdnError,
CdnTaskRegistryFail, CdnTaskDownloadFail, it records pp.Code as failedCode and a
failedReason, and returns true; for every other code it returns false and
mutates nothing. -/
def isExitPeerPacketCode (s : TaskState) (pp : PeerPacket) : Bool × TaskState :=
  match pp.code with
  | Code.ResourceLacked | Code.BadRequest | Code.PeerTaskNotFound
  | Code.UnknownError | Code.RequestTimeOut =>
      (true, { s with failedCode := pp.code, failedReason := exitPacketReason })
  | Code.SchedError =>
      (true, { s with failedCode := pp.code, failedReason := exitPacketReason })
  | Code.SchedPeerGone =>
      (true, { s with failedReason := reasonPeerGoneFromScheduler,
                      failedCode := Code.SchedPeerGone })
  | Code.CdnError | Code.CdnTaskRegistryFail | Code.CdnTaskDownloadFail =>
      (true, { s with failedCode := pp.code, failedReason := exitPacketReason })
  | _ => (false, s)

/-- The list of exit-triggering peer packet codes named by the spec (§4.2). -/
def exitPeerPacketCodes : List Code :=
  [Code.ResourceLacked, Code.BadRequest, Code.PeerTaskNotFound, Code.UnknownError,
   Code.RequestTimeOut, Code.SchedError, Code.SchedPeerGone, Code.CdnError,
   Code.CdnTaskRegistryFail, Code.CdnTaskDownloadFail]

/-- Outcome of handling one received peer packet in the coordinator loop. -/
inductive RecvOutcome where
  | exitLoop
  | continueLoop
  | stored
  | nilDeref
deriving DecidableEq

/-- The body of the coordinator loop receivePeerPacket of peertask_base.go
(lines 249-293) handling one received packet: a non-Success code goes through
isExitPeerPacketCode — exit cancels the task and breaks, otherwise the loop
continues; a Success packet with both mainPeer and stealPeers nil is skipped;
after that guard the code reads peerPacket.MainPeer.PeerId, a nil dereference
when mainPeer is nil but stealPeers is not; otherwise the packet is stored and
parallelCount latched. -/
def receivePacketStep (s : TaskState) (pp : PeerPacket) : RecvOutcome × TaskState :=
  if pp.code ≠ Code.Success then
    let r := isExitPeerPacketCode s pp
    if r.1 then (RecvOutcome.exitLoop, { r.2 with cancelled := true })
    else (RecvOutcome.continueLoop, r.2)
  else if pp.mainPeer = none ∧ pp.stealPeers = none then
    (RecvOutcome.continueLoop, s)
  else
    match pp.mainPeer with
    | none => (RecvOutcome.nilDeref, s)
    | some _ =>
        (RecvOutcome.stored,
         { s with peerPacket := some pp, pieceParallelCount := pp.parallelCount })

/-- The select alternatives of waitFirstPeerPacket of peertask_base.go. -/
inductive WaitEvent where
  | ctxDone
  | packetReady
  | timeout
deriving DecidableEq

/-- waitFirstPeerPacket of peertask_base.go (lines 479-505), as a function of
which select alternative fires. On ctx.Done: record the context error as
failedReason when none was set, return false. On peerPacketReady: return true.
On schedule timeout: when DisableAutoBackSource, set failedReason and
failedCode = ClientScheduleTimeout — and then, with no early return, the code
still sets needBackSource and calls pt.backSource() before returning false. -/
def waitFirstPeerPacket (s : TaskState) (ev : WaitEvent) : TaskState × Bool × List Event :=
  match ev with
  | WaitEvent.ctxDone =>
      let s1 :=
        if s.failedReason = failedReasonNotSet then
          { s with failedReason := reasonContextCanceled }
        else s
      (s1, false, [])
  | WaitEvent.packetReady => (s, true, [])
  | WaitEvent.timeout =>
      let s1 :=
        if s.disableAutoBackSource then
          { s with failedReason := reasonScheduleTimeout,
                   failedCode := Code.ClientScheduleTimeout }
        else s
      let s2 := { s1 with needBackSource := true }
      (s2, false, [Event.backSourceCall])

/-- The ctx.Done branch of the main loop of pullPiecesFromPeers of
peertask_base.go (lines 388-399): when the task is not yet done, assign
ClientContextCanceled only if failedCode still equals the failedCodeNotSet
sentinel (0), else keep the existing failedCode; either way call callback.Fail. -/
def pullLoopCtxDone (s : TaskState) : TaskState × List Event :=
  if s.peerTaskDone then (s, [])
  else if s.failedCode = failedCodeNotSet then
    let s1 := { s with failedReason := reasonContextCanceled,
                       failedCode := Code.ClientContextCanceled }
    (s1, [Event.callbackFail Code.ClientContextCanceled reasonContextCanceled])
  else
    (s, [Event.callbackFail s.failedCode s.failedReason])

/-- Dispatch of one piece descriptor in dispatchPieceRequest of
peertask_base.go (lines 551-576): set the requested bit if not yet set;
readyPieces and completedLength are untouched. -/
def dispatchPieceRequest (s : TaskState) (p : PieceInfo) : TaskState :=
  if s.requestedPieces.IsSet p.pieceNum then s
  else { s with requestedPieces := s.requestedPieces.Set p.pieceNum }

/-- The PieceResult sent by preparePieceTasksByPeer of peertask_base.go
(lines 738-746) when getting piece tasks from a peer fails: Success false,
the computed error code, and FinishedCount -1 (PieceNum left at its zero
value). -/
def getPieceTaskFailResult (s : TaskState) (dstPid : String) (code : Code) : PieceResult :=
  { taskId := s.taskId
    srcPid := s.peerId
    dstPid := dstPid
    pieceNum := 0
    success := false
    code := code
    finishedCount := -1 }

/-- The PieceResult sent by getPieceTasks of peertask_base.go (lines 782-790)
when a peer answers with an empty piece list: code ClientWaitPieceReady and
FinishedCount = readyPieces.Settled(). -/
def waitPieceReadyResult (s : TaskState) (dstPid : String) : PieceResult :=
  { taskId := s.taskId
    srcPid := s.peerId
    dstPid := dstPid
    pieceNum := 0
    success := false
    code := Code.ClientWaitPieceReady
    finishedCount := s.readyPieces.Settled }

/-- dummyPeerPacketStream.Recv of peertask_dummy.go: always an error carrying
code SchedNeedBackSource and an empty message. -/
def dummyPeerPacketStreamRecv : Except DfError PeerPacket :=
  Except.error { code := Code.SchedNeedBackSource, message := "" }

/-- dummyPeerPacketStream.Send of peertask_dummy.go: discards the result and
returns no error. -/
def dummyPeerPacketStreamSend (_pr : PieceResult) : Except DfError Unit :=
  Except.ok ()

/-- Modelled from the spec: `task-id = hash(url + url-meta)` (§4.3.1); the
idgen package is not under src/, so the hash is a stand-in function of the url
and the url-meta. -/
def idgenTaskID (url urlMeta : String) : String :=
  String.append (String.append "hash:" url) urlMeta

/-- Size scope of a registration result (base.SizeScope). -/
inductive SizeScope where
  | tiny
  | small
  | normal
deriving DecidableEq

/-- The DirectPiece payload of a RegisterResult (oneof in scheduler proto). -/
inductive DirectPiece where
  | noPiece
  | single (p : PieceInfo) (dstPid dstAddr : String)
  | content (c : String)
deriving DecidableEq

/-- Registration result (scheduler.RegisterResult). -/
structure RegisterResult where
  taskId : String
  sizeScope : SizeScope
  directPiece : DirectPiece
deriving DecidableEq

/-- Which scheduler client/stream backs the task: the real one obtained from
ReportPieceResult, or the dummy substituted after a failed registration. -/
inductive StreamKind where
  | real
  | dummy
deriving DecidableEq

/-- The data newFilePeerTask assembles for the created task. -/
structure FileTaskInit where
  needBackSource : Bool
  taskId : String
  stream : StreamKind
  singlePiece : Option PieceInfo
  state : TaskState
deriving DecidableEq

/-- The possible results of newFilePeerTask. -/
inductive NewTaskOutcome where
  | fail
  | tinyData (taskId content : String)
  | task (t : FileTaskInit)
deriving DecidableEq

/-- newFilePeerTask of peertask_file.go (lines 75-201): `register` is the
transport outcome of RegisterPeerTask (none = error). On error with
DisableAutoBackSource the constructor fails; otherwise it sets needBackSource,
substitutes the dummy scheduler client and synthesizes
taskId = idgen.TaskID(url, urlMeta). The size-scope switch runs only when not
backing to source: Tiny returns the embedded content (or fails when absent),
Small extracts the single piece. The peer packet stream then comes from the
(possibly dummy) scheduler client, and the task state is initialized as in
newFilePeerTaskState. -/
def newFilePeerTask (register : Option RegisterResult)
    (disableAutoBackSource : Bool) (url urlMeta peerId : String) : NewTaskOutcome :=
  let needBackSource := register.isNone
  if register.isNone ∧ disableAutoBackSource then NewTaskOutcome.fail
  else
    let result : RegisterResult :=
      match register with
      | some r => r
      | none =>
          { taskId := idgenTaskID url urlMeta
            sizeScope := SizeScope.normal
            directPiece := DirectPiece.noPiece }
    let stream := if needBackSource then StreamKind.dummy else StreamKind.real
    if ¬needBackSource ∧ result.sizeScope = SizeScope.tiny then
      match result.directPiece with
      | DirectPiece.content c => NewTaskOutcome.tinyData result.taskId c
      | _ => NewTaskOutcome.fail
    else
      let singlePiece : Option PieceInfo :=
        if ¬needBackSource ∧ result.sizeScope = SizeScope.small then
          match result.directPiece with
          | DirectPiece.single p _ _ => some p
          | _ => none
        else none
      NewTaskOutcome.task
        { needBackSource := needBackSource
          taskId := result.taskId
          stream := stream
          singlePiece := singlePiece
          state := newFilePeerTaskState result.taskId peerId needBackSource
                     disableAutoBackSource }

/-- One call to the pair of one-shot finalizers. -/
inductive FinishCall where
  | fin
  | clean
deriving DecidableEq

/-- Run one finalizer call. -/
def runFinishCall (s : TaskState) (c : FinishCall) : TaskState × List Event :=
  match c with
  | FinishCall.fin => finish s
  | FinishCall.clean => cleanUnfinished s

/-- Run a sequence of finish/cleanUnfinished calls, accumulating events. -/
def runFinishCalls (s : TaskState) : List FinishCall → TaskState × List Event
  | [] => (s, [])
  | c :: cs =>
      let r := runFinishCall s c
      let rest := runFinishCalls r.1 cs
      (rest.1, r.2 ++ rest.2)

/-- Run a sequence of ReportPieceResult calls, accumulating events. -/
def runReports (s : TaskState) : List PieceTaskResult → TaskState × List Event
  | [] => (s, [])
  | r :: rs =>
      let c := reportPieceResult s r
      let rest := runReports c.1 rs
      (rest.1, c.2 ++ rest.2)

/-- Number of one-shot body executions recorded in a trace. -/
def bodyRunCount (evs : List Event) : Nat :=
  evs.countP fun e =>
    match e with
    | Event.finishBodyRun => true
    | Event.cleanBodyRun => true
    | _ => false

/-- Number of closes of the done channel recorded in a trace. -/
def closeDoneCount (evs : List Event) : Nat :=
  evs.countP fun e =>
    match e with
    | Event.closeDone => true
    | _ => false

/-- Number of successful PieceResult sends for piece number `n` in a trace. -/
def successSendCount (n : Int) (evs : List Event) : Nat :=
  evs.countP fun e =>
    match e with
    | Event.send pr => pr.success && pr.pieceNum == n
    | _ => false

/-- The linearizable length invariant of the spec (§8): completedLength equals
the sum of the range sizes of the ready pieces, for a given assignment of range
sizes to piece numbers. -/
def lengthInvariant (sizes : Int → Int) (s : TaskState) : Prop :=
  s.completedLength = ∑ p ∈ s.readyPieces, sizes p

/-- A plain freshly created task state used to instantiate theorems. -/
def sampleState : TaskState := newFilePeerTaskState "task-1" "peer-1" false false

/-- A freshly created task state with auto back source disabled. -/
def sampleStateNoBS : TaskState := newFilePeerTaskState "task-3" "peer-3" false true

/-- A packet carrying the exit code SchedError. -/
def ppSchedError : PeerPacket :=
  { taskId := "t", code := Code.SchedError, mainPeer := none, stealPeers := none,
    parallelCount := 0 }

/-- A Success packet with a nil main peer but a non-nil steal peer list. -/
def ppNilMain : PeerPacket :=
  { taskId := "t", code := Code.Success, mainPeer := none,
    stealPeers := some [{ ip := "1.2.3.4", rpcPort := 80, peerId := "steal-1" }],
    parallelCount := 4 }

/-- A state with completedLength = contentLength but fewer ready pieces than
totalPiece, exercising isCompleted. -/
def partialReadyState : TaskState :=
  { sampleState with
      readyPieces := ({0, 1} : Finset Int)
      totalPiece := 4
      contentLength := 100
      completedLength := 100 }

/-- A state with one ready piece, used for the finished-count claims. -/
def oneReadyState : TaskState :=
  { sampleState with readyPieces := ({0} : Finset Int), completedLength := 10 }

/-- A successful piece report for piece 5 of range size 7. -/
def reportPiece5 : PieceTaskResult :=
  { piece := { pieceNum := 5, rangeStart := 0, rangeSize := 7 }
    pieceResult :=
      { taskId := "task-1", srcPid := "peer-1", dstPid := "peer-2", pieceNum := 5,
        success := true, code := Code.Success, finishedCount := 0 } }

/-- A failed piece report for piece 2. -/
def failReportPiece2 : PieceTaskResult :=
  { piece := { pieceNum := 2, rangeStart := 0, rangeSize := 9 }
    pieceResult :=
      { taskId := "task-1", srcPid := "peer-1", dstPid := "peer-2", pieceNum := 2,
        success := false, code := Code.ClientPieceRequestFail, finishedCount := 0 } }

/-- The piece result the failed report for piece 2 puts on the stream when the
task has one ready piece. -/
def sentFailPiece2 : PieceResult :=
  { taskId := "task-1", srcPid := "peer-1", dstPid := "peer-2", pieceNum := 2,
    success := false, code := Code.ClientPieceRequestFail, finishedCount := 1 }

end Dragonfly

namespace Dragonfly

/-! ## Helper lemmas shared by the claim theorems -/

theorem Bitmap.isSet_iff (b : Bitmap) (i : Int) : b.IsSet i = true ↔ i ∈ b := by
  simp [Bitmap.IsSet]

theorem finish_fst_readyPieces (s : TaskState) :
    (finish s).1.readyPieces = s.readyPieces := by
  unfold finish; split <;> rfl

theorem finish_fst_completedLength (s : TaskState) :
    (finish s).1.completedLength = s.completedLength := by
  unfold finish; split <;> rfl

theorem cleanUnfinished_fst_readyPieces (s : TaskState) :
    (cleanUnfinished s).1.readyPieces = s.readyPieces := by
  unfold cleanUnfinished; dsimp only; split <;> rfl

theorem cleanUnfinished_fst_completedLength (s : TaskState) :
    (cleanUnfinished s).1.completedLength = s.completedLength := by
  unfold cleanUnfinished; dsimp only; split <;> rfl

theorem finish_snd_fired (s : TaskState) (h : s.onceFired = true) :
    (finish s).2 = [] := by
  unfold finish; simp [h]

theorem finish_snd_unfired (s : TaskState) (h : s.onceFired = false) :
    (finish s).2 =
      [Event.finishBodyRun,
       Event.send (NewEndPieceResult s.taskId s.peerId s.readyPieces.Settled),
       Event.callbackDone,
       Event.progress true (!s.cbDoneFails)
         (if s.cbDoneFails then Code.ClientError else Code.Success) s.completedLength,
       Event.closeDone] := by
  unfold finish; simp [h]

theorem finish_send_finishedCount (s : TaskState) (pr : PieceResult)
    (h : Event.send pr ∈ (finish s).2) :
    pr.finishedCount = s.readyPieces.Settled := by
  by_cases hf : s.onceFired = true
  · rw [finish_snd_fired s hf] at h
    simp at h
  · rw [finish_snd_unfired s (Bool.eq_false_iff.mpr hf)] at h
    simp at h
    subst h
    rfl

theorem reportPieceResult_failure (s : TaskState) (r : PieceTaskResult)
    (h : r.pieceResult.success = false) :
    reportPieceResult s r =
      (s, [Event.send { r.pieceResult with finishedCount := s.readyPieces.Settled },
           Event.pushFailed r.pieceResult.pieceNum]) := by
  unfold reportPieceResult; simp [h]

theorem reportPieceResult_already_set (s : TaskState) (r : PieceTaskResult)
    (h1 : r.pieceResult.success = true)
    (h2 : s.readyPieces.IsSet r.pieceResult.pieceNum = true) :
    reportPieceResult s r = (s, []) := by
  unfold reportPieceResult; simp [h1, h2]

theorem reportPieceResult_new_fst (s : TaskState) (r : PieceTaskResult)
    (h1 : r.pieceResult.success = true)
    (h2 : s.readyPieces.IsSet r.pieceResult.pieceNum = false) :
    (reportPieceResult s r).1.readyPieces = s.readyPieces.Set r.pieceResult.pieceNum
    ∧ (reportPieceResult s r).1.completedLength
        = s.completedLength + r.piece.rangeSize := by
  unfold reportPieceResult
  simp only [h1, h2, Bool.true_eq_false, if_false, Bool.false_eq_true]
  split
  · rw [finish_fst_readyPieces, finish_fst_completedLength]
    exact ⟨rfl, rfl⟩
  · exact ⟨rfl, rfl⟩

theorem reportPieceResult_new_snd (s : TaskState) (r : PieceTaskResult)
    (h1 : r.pieceResult.success = true)
    (h2 : s.readyPieces.IsSet r.pieceResult.pieceNum = false) :
    (reportPieceResult s r).2 =
      [Event.send { r.pieceResult with
          finishedCount := (s.readyPieces.Set r.pieceResult.pieceNum).Settled },
       Event.progress false true r.pieceResult.code
         (s.completedLength + r.piece.rangeSize)]
      ++ (finish { s with
            readyPieces := s.readyPieces.Set r.pieceResult.pieceNum
            completedLength := s.completedLength + r.piece.rangeSize }).2
      ∨ (reportPieceResult s r).2 =
      [Event.send { r.pieceResult with
          finishedCount := (s.readyPieces.Set r.pieceResult.pieceNum).Settled },
       Event.progress false true r.pieceResult.code
         (s.completedLength + r.piece.rangeSize)] := by
  unfold reportPieceResult
  simp only [h1, h2, Bool.true_eq_false, if_false, Bool.false_eq_true]
  split
  · left; rfl
  · right; rfl

theorem isExitPeerPacketCode_preserves (s : TaskState) (pp : PeerPacket) :
    (isExitPeerPacketCode s pp).2.readyPieces = s.readyPieces
    ∧ (isExitPeerPacketCode s pp).2.completedLength = s.completedLength := by
  unfold isExitPeerPacketCode
  split <;> exact ⟨rfl, rfl⟩

theorem receivePacketStep_preserves (s : TaskState) (pp : PeerPacket) :
    (receivePacketStep s pp).2.readyPieces = s.readyPieces
    ∧ (receivePacketStep s pp).2.completedLength = s.completedLength := by
  unfold receivePacketStep
  split
  · dsimp only
    split
    · exact isExitPeerPacketCode_preserves s pp
    · exact isExitPeerPacketCode_preserves s pp
  · split
    · exact ⟨rfl, rfl⟩
    · split <;> exact ⟨rfl, rfl⟩

theorem waitFirstPeerPacket_preserves (s : TaskState) (ev : WaitEvent) :
    (waitFirstPeerPacket s ev).1.readyPieces = s.readyPieces
    ∧ (waitFirstPeerPacket s ev).1.completedLength = s.completedLength := by
  cases ev
  · unfold waitFirstPeerPacket
    dsimp only
    split <;> exact ⟨rfl, rfl⟩
  · exact ⟨rfl, rfl⟩
  · unfold waitFirstPeerPacket
    dsimp only
    split <;> exact ⟨rfl, rfl⟩

theorem pullLoopCtxDone_preserves (s : TaskState) :
    (pullLoopCtxDone s).1.readyPieces = s.readyPieces
    ∧ (pullLoopCtxDone s).1.completedLength = s.completedLength := by
  unfold pullLoopCtxDone
  split
  · exact ⟨rfl, rfl⟩
  · split <;> exact ⟨rfl, rfl⟩

theorem dispatchPieceRequest_preserves (s : TaskState) (p : PieceInfo) :
    (dispatchPieceRequest s p).readyPieces = s.readyPieces
    ∧ (dispatchPieceRequest s p).completedLength = s.completedLength := by
  unfold dispatchPieceRequest
  split <;> exact ⟨rfl, rfl⟩

theorem finish_fired (s : TaskState) (h : s.onceFired = true) :
    finish s = (s, []) := by
  unfold finish; simp [h]

theorem cleanUnfinished_fired (s : TaskState) (h : s.onceFired = true) :
    cleanUnfinished s = ({ s with cancelled := true }, []) := by
  unfold cleanUnfinished; simp [h]

theorem finish_fst_onceFired (s : TaskState) (h : s.onceFired = false) :
    (finish s).1.onceFired = true := by
  unfold finish; simp [h]

theorem cleanUnfinished_fst_onceFired (s : TaskState) (h : s.onceFired = false) :
    (cleanUnfinished s).1.onceFired = true := by
  unfold cleanUnfinished; simp [h]

theorem cleanUnfinished_snd_unfired (s : TaskState) (h : s.onceFired = false) :
    (cleanUnfinished s).2 =
      [Event.cleanBodyRun,
       Event.send (NewEndPieceResult s.taskId s.peerId s.readyPieces.Settled),
       Event.progress true false s.failedCode s.completedLength,
       Event.callbackFail s.failedCode s.failedReason,
       Event.closeDone] := by
  unfold cleanUnfinished; simp [h]

theorem runFinishCall_fired (s : TaskState) (c : FinishCall) (h : s.onceFired = true) :
    (runFinishCall s c).2 = [] ∧ (runFinishCall s c).1.onceFired = true := by
  cases c
  · simp [runFinishCall, finish_fired s h, h]
  · simp [runFinishCall, cleanUnfinished_fired s h, h]

theorem runFinishCalls_fired (cs : List FinishCall) :
    ∀ s : TaskState, s.onceFired = true →
      (runFinishCalls s cs).2 = [] ∧ (runFinishCalls s cs).1.onceFired = true := by
  induction cs with
  | nil => intro s h; exact ⟨rfl, h⟩
  | cons c cs ih =>
      intro s h
      have h1 := runFinishCall_fired s c h
      have h2 := ih (runFinishCall s c).1 h1.2
      constructor
      · simp [runFinishCalls, h1.1, h2.1]
      · simp [runFinishCalls, h2.2]

theorem runFinishCall_unfired (s : TaskState) (c : FinishCall) (h : s.onceFired = false) :
    bodyRunCount (runFinishCall s c).2 = 1
    ∧ closeDoneCount (runFinishCall s c).2 = 1
    ∧ (runFinishCall s c).1.onceFired = true := by
  cases c
  · refine ⟨?_, ?_, finish_fst_onceFired s h⟩ <;>
      · rw [show (runFinishCall s FinishCall.fin).2 = (finish s).2 from rfl,
            finish_snd_unfired s h]
        rfl
  · refine ⟨?_, ?_, cleanUnfinished_fst_onceFired s h⟩ <;>
      · rw [show (runFinishCall s FinishCall.clean).2 = (cleanUnfinished s).2 from rfl,
            cleanUnfinished_snd_unfired s h]
        rfl

theorem successSendCount_append (n : Int) (a b : List Event) :
    successSendCount n (a ++ b) = successSendCount n a + successSendCount n b := by
  simp [successSendCount, List.countP_append]

theorem bitmap_isSet_set_ne (b : Bitmap) (m i : Int) (hmn : m ≠ i) :
    (b.Set m).IsSet i = b.IsSet i := by
  simp only [Bitmap.Set, Bitmap.IsSet, decide_eq_decide, Finset.mem_insert]
  constructor
  · rintro (h | h)
    · exact absurd h.symm hmn
    · exact h
  · exact Or.inr

theorem bitmap_isSet_set_self (b : Bitmap) (m : Int) :
    (b.Set m).IsSet m = true := by
  simp [Bitmap.Set, Bitmap.IsSet]

theorem successSendCount_finish (n : Int) (hn : 0 ≤ n) (s : TaskState) :
    successSendCount n (finish s).2 = 0 := by
  by_cases h : s.onceFired = true
  · rw [finish_snd_fired s h]; rfl
  · rw [finish_snd_unfired s (Bool.eq_false_iff.mpr h)]
    have hne : ((-1 : Int) == n) = false := by
      simp only [beq_eq_false_iff_ne, ne_eq]
      omega
    simp [successSendCount, NewEndPieceResult, List.countP_cons, hne]

theorem successSendCount_report (n : Int) (hn : 0 ≤ n)
    (s : TaskState) (r : PieceTaskResult) :
    (s.readyPieces.IsSet n = true →
        successSendCount n (reportPieceResult s r).2 = 0
        ∧ (reportPieceResult s r).1.readyPieces.IsSet n = true)
    ∧ (s.readyPieces.IsSet n = false →
        (successSendCount n (reportPieceResult s r).2 = 0
          ∧ (reportPieceResult s r).1.readyPieces.IsSet n = false)
        ∨ (successSendCount n (reportPieceResult s r).2 = 1
          ∧ (reportPieceResult s r).1.readyPieces.IsSet n = true)) := by
  by_cases h1 : r.pieceResult.success = false
  · rw [reportPieceResult_failure s r h1]
    have hc : successSendCount n
        [Event.send { r.pieceResult with finishedCount := s.readyPieces.Settled },
         Event.pushFailed r.pieceResult.pieceNum] = 0 := by
      simp [successSendCount, List.countP_cons, h1]
    exact ⟨fun h => ⟨hc, h⟩, fun h => Or.inl ⟨hc, h⟩⟩
  · have h1' : r.pieceResult.success = true := by
      revert h1; cases r.pieceResult.success <;> simp
    by_cases h2 : s.readyPieces.IsSet r.pieceResult.pieceNum = true
    · rw [reportPieceResult_already_set s r h1' h2]
      exact ⟨fun h => ⟨rfl, h⟩, fun h => Or.inl ⟨rfl, h⟩⟩
    · have h2' : s.readyPieces.IsSet r.pieceResult.pieceNum = false :=
        Bool.eq_false_iff.mpr h2
      have hfst := (reportPieceResult_new_fst s r h1' h2').1
      have hcount : successSendCount n (reportPieceResult s r).2
          = (if r.pieceResult.pieceNum == n then 1 else 0) := by
        rcases reportPieceResult_new_snd s r h1' h2' with hsnd | hsnd <;>
          rw [hsnd]
        · rw [successSendCount_append,
              successSendCount_finish n hn
                { s with
                    readyPieces := s.readyPieces.Set r.pieceResult.pieceNum
                    completedLength := s.completedLength + r.piece.rangeSize }]
          simp [successSendCount, List.countP_cons, h1']
        · simp [successSendCount, List.countP_cons, h1']
      by_cases hmn : r.pieceResult.pieceNum = n
      · constructor
        · intro h
          rw [← hmn] at h
          exact absurd h (by simp [h2'])
        · intro _
          refine Or.inr ⟨?_, ?_⟩
          · rw [hcount]; simp [hmn]
          · rw [hfst, ← hmn]
            exact bitmap_isSet_set_self s.readyPieces r.pieceResult.pieceNum
      · have hset := bitmap_isSet_set_ne s.readyPieces r.pieceResult.pieceNum n hmn
        have hc0 : successSendCount n (reportPieceResult s r).2 = 0 := by
          rw [hcount]
          simp [hmn]
        constructor
        · intro h
          refine ⟨hc0, ?_⟩
          rw [hfst, hset]; exact h
        · intro h
          refine Or.inl ⟨hc0, ?_⟩
          rw [hfst, hset]; exact h

theorem successSendCount_run (n : Int) (hn : 0 ≤ n) (rs : List PieceTaskResult) :
    ∀ s : TaskState,
      (s.readyPieces.IsSet n = true → successSendCount n (runReports s rs).2 = 0)
      ∧ (s.readyPieces.IsSet n = false → successSendCount n (runReports s rs).2 ≤ 1) := by
  induction rs with
  | nil =>
      intro s
      constructor
      · intro _; rfl
      · intro _
        show successSendCount n [] ≤ 1
        simp [successSendCount]
  | cons r rs ih =>
      intro s
      have hr := successSendCount_report n hn s r
      have happ : successSendCount n (runReports s (r :: rs)).2
          = successSendCount n (reportPieceResult s r).2
            + successSendCount n (runReports (reportPieceResult s r).1 rs).2 := by
        simp [runReports, successSendCount_append]
      constructor
      · intro h
        have h1 := hr.1 h
        have h2 := (ih (reportPieceResult s r).1).1 h1.2
        rw [happ, h1.1, h2]
      · intro h
        rcases hr.2 h with ⟨ha, hb⟩ | ⟨ha, hb⟩
        · have h2 := (ih (reportPieceResult s r).1).2 hb
          rw [happ, ha]
          omega
        · have h2 := (ih (reportPieceResult s r).1).1 hb
          rw [happ, ha, h2]

/-- C7: isExitPeerPacketCode returns true exactly for the ten codes
ResourceLacked, BadRequest, PeerTaskNotFound, UnknownError, RequestTimeOut,
SchedError, SchedPeerGone, CdnError, CdnTaskRegistryFail, CdnTaskDownloadFail,
in which case it records the packet's code as failedCode together with a
failedReason; for every other code it returns false, leaves the state
untouched, and the coordinator loop treats the packet as a non-terminal
event (continues the loop). -/
theorem isExitPeerPacketCode_exit_iff (s : TaskState) (pp : PeerPacket) :
    ((isExitPeerPacketCode s pp).1 = true ↔ pp.code ∈ exitPeerPacketCodes)
    ∧ (pp.code ∈ exitPeerPacketCodes →
        (isExitPeerPacketCode s pp).2.failedCode = pp.code
        ∧ ((isExitPeerPacketCode s pp).2.failedReason = exitPacketReason
           ∨ (isExitPeerPacketCode s pp).2.failedReason = reasonPeerGoneFromScheduler))
    ∧ (pp.code ∉ exitPeerPacketCodes →
        (isExitPeerPacketCode s pp).2 = s
        ∧ (pp.code ≠ Code.Success →
            (receivePacketStep s pp).1 = RecvOutcome.continueLoop)) := by
  rcases pp with ⟨tid, code, mp, sp, pc⟩
  cases code <;>
    simp [isExitPeerPacketCode, exitPeerPacketCodes, receivePacketStep]

/-- C7 witness: a SchedError packet is terminal and records its code. -/
theorem isExitPeerPacketCode_exit_iff_witness :
    Code.SchedError ∈ exitPeerPacketCodes
    ∧ (isExitPeerPacketCode sampleState ppSchedError).2.failedCode = Code.SchedError :=
  ⟨by decide,
   ((isExitPeerPacketCode_exit_iff sampleState ppSchedError).2.1 (by decide)).1⟩

/-- C10: the empty-peers guard of receivePeerPacket skips a packet only when
main-peer and steal-peers are both nil; a Success packet with a nil main peer
but non-nil steal peers reaches the dereference of MainPeer.PeerId (a nil
dereference); when the main peer is present the handler never hits that
dereference. -/
theorem receivePacketStep_nil_main_peer (s : TaskState) (pp : PeerPacket) :
    (pp.code = Code.Success → pp.mainPeer = none → pp.stealPeers = none →
        (receivePacketStep s pp).1 = RecvOutcome.continueLoop)
    ∧ (pp.code = Code.Success → pp.mainPeer = none → pp.stealPeers ≠ none →
        (receivePacketStep s pp).1 = RecvOutcome.nilDeref)
    ∧ (∀ mp, pp.mainPeer = some mp →
        (receivePacketStep s pp).1 ≠ RecvOutcome.nilDeref) := by
  rcases pp with ⟨tid, code, mp, sp, pc⟩
  refine ⟨?_, ?_, ?_⟩
  · rintro rfl rfl rfl
    simp [receivePacketStep]
  · rintro rfl rfl hsp
    rcases sp with _ | l
    · exact absurd rfl hsp
    · simp [receivePacketStep]
  · rintro mp0 rfl
    by_cases hc : code = Code.Success
    · subst hc
      simp [receivePacketStep]
    · simp only [receivePacketStep]
      rw [if_pos hc]
      split <;> simp

/-- C10 witness: a concrete Success packet with nil main peer and one steal
peer drives the handler into the nil dereference, and the same packet with a
main peer does not. -/
theorem receivePacketStep_nil_main_peer_witness :
    (receivePacketStep sampleState ppNilMain).1 = RecvOutcome.nilDeref :=
  (receivePacketStep_nil_main_peer sampleState ppNilMain).2.1 rfl rfl (by decide)

/-- C6 counterexample: a state whose ready count (2) is below totalPiece (4)
but whose completedLength equals contentLength has isCompleted() = true,
contradicting the claim that is_completed() requires ready-count = total. -/
theorem isCompleted_cex :
    isCompleted partialReadyState = true
    ∧ partialReadyState.readyPieces.Settled < partialReadyState.totalPiece := by
  constructor
  · decide
  · decide

/-- C6 amended: is_completed() returns true iff completed-length equals
content-length; the ready-piece bitmap and total-pieces are not consulted
(the value is invariant under changing them). -/
theorem isCompleted_iff_lengths (s : TaskState) :
    (isCompleted s = true ↔ s.completedLength = s.contentLength)
    ∧ ∀ r tp, isCompleted { s with readyPieces := r, totalPiece := tp } = isCompleted s := by
  constructor
  · simp [isCompleted]
  · intro r tp; rfl

/-- C6 amended witness: at the concrete partially-ready state, isCompleted is
true and indeed its two lengths agree. -/
theorem isCompleted_iff_lengths_witness :
    partialReadyState.completedLength = partialReadyState.contentLength :=
  (isCompleted_iff_lengths partialReadyState).1.mp (by decide)

/-- C9: when RegisterPeerTask fails on transport (register = none) and auto
back source is not disabled, newFilePeerTask creates a task with
needs-back-source set, task-id = hash(url + url-meta), and the dummy scheduler
stream substituted; that stream returns an error carrying SchedNeedBackSource
on every recv and discards every send without error. -/
theorem newFilePeerTask_register_fail_back_source (url urlMeta peerId : String) :
    newFilePeerTask none false url urlMeta peerId =
      NewTaskOutcome.task
        { needBackSource := true
          taskId := idgenTaskID url urlMeta
          stream := StreamKind.dummy
          singlePiece := none
          state := newFilePeerTaskState (idgenTaskID url urlMeta) peerId true false }
    ∧ dummyPeerPacketStreamRecv =
        Except.error { code := Code.SchedNeedBackSource, message := "" }
    ∧ ∀ pr, dummyPeerPacketStreamSend pr = Except.ok () := by
  refine ⟨?_, rfl, fun pr => rfl⟩
  simp [newFilePeerTask]

/-- C3: on schedule timeout in waitFirstPeerPacket with auto back source
DISABLED, the code records failedCode = ClientScheduleTimeout and the timeout
reason — but then still sets needBackSource and calls backSource(), entering
the back-source path (the disabled branch has no early return). Evaluated at
the failing input. -/
theorem waitFirstPeerPacket_timeout_disabled_still_back_sources :
    (waitFirstPeerPacket sampleStateNoBS WaitEvent.timeout).1.failedCode
        = Code.ClientScheduleTimeout
    ∧ (waitFirstPeerPacket sampleStateNoBS WaitEvent.timeout).1.failedReason
        = reasonScheduleTimeout
    ∧ (waitFirstPeerPacket sampleStateNoBS WaitEvent.timeout).1.needBackSource = true
    ∧ (waitFirstPeerPacket sampleStateNoBS WaitEvent.timeout).2.2
        = [Event.backSourceCall] := by
  refine ⟨?_, ?_, ?_, ?_⟩ <;> decide

/-- C4: a file peer task starts with failedCode = UnknownError (newFilePeerTask),
not the failedCodeNotSet sentinel, although the two are distinct values; hence
on context cancel with no failure recorded the ctx.Done branch of
pullPiecesFromPeers keeps UnknownError and never assigns ClientContextCanceled.
Evaluated at the failing input. -/
theorem pullLoopCtxDone_keeps_unknown_error :
    sampleState.failedCode = Code.UnknownError
    ∧ failedCodeNotSet ≠ Code.UnknownError
    ∧ (pullLoopCtxDone sampleState).1.failedCode = Code.UnknownError
    ∧ (pullLoopCtxDone sampleState).1.failedCode ≠ Code.ClientContextCanceled
    ∧ (pullLoopCtxDone sampleState).2
        = [Event.callbackFail Code.UnknownError failedReasonNotSet] := by
  refine ⟨rfl, by decide, ?_, ?_, ?_⟩ <;> decide

/-- C1: ReportPieceResult preserves the invariant
completedLength = Σ range-size over ready pieces: a success report for a piece
whose ready bit is clear sets exactly that bit and adds exactly that piece's
RangeSize to completedLength in the same atomic step, and every other modeled
operation (coordinator packet handling, waitFirstPeerPacket, the ctx.Done
branch of the pull loop, piece dispatch, finish, cleanUnfinished) leaves
readyPieces and completedLength untouched. -/
theorem reportPieceResult_length_invariant (sizes : Int → Int) (s : TaskState)
    (r : PieceTaskResult)
    (hinv : lengthInvariant sizes s)
    (hsize : r.piece.rangeSize = sizes r.pieceResult.pieceNum) :
    lengthInvariant sizes (reportPieceResult s r).1
    ∧ (r.pieceResult.success = true →
        s.readyPieces.IsSet r.pieceResult.pieceNum = false →
        (reportPieceResult s r).1.readyPieces = s.readyPieces.Set r.pieceResult.pieceNum
        ∧ (reportPieceResult s r).1.completedLength
            = s.completedLength + r.piece.rangeSize)
    ∧ (∀ pp, (receivePacketStep s pp).2.readyPieces = s.readyPieces
        ∧ (receivePacketStep s pp).2.completedLength = s.completedLength)
    ∧ (∀ ev, (waitFirstPeerPacket s ev).1.readyPieces = s.readyPieces
        ∧ (waitFirstPeerPacket s ev).1.completedLength = s.completedLength)
    ∧ ((pullLoopCtxDone s).1.readyPieces = s.readyPieces
        ∧ (pullLoopCtxDone s).1.completedLength = s.completedLength)
    ∧ (∀ p, (dispatchPieceRequest s p).readyPieces = s.readyPieces
        ∧ (dispatchPieceRequest s p).completedLength = s.completedLength)
    ∧ ((finish s).1.readyPieces = s.readyPieces
        ∧ (finish s).1.completedLength = s.completedLength)
    ∧ ((cleanUnfinished s).1.readyPieces = s.readyPieces
        ∧ (cleanUnfinished s).1.completedLength = s.completedLength) := by
  refine ⟨?_, fun h1 h2 => reportPieceResult_new_fst s r h1 h2,
          fun pp => receivePacketStep_preserves s pp,
          fun ev => waitFirstPeerPacket_preserves s ev,
          pullLoopCtxDone_preserves s,
          fun p => dispatchPieceRequest_preserves s p,
          ⟨finish_fst_readyPieces s, finish_fst_completedLength s⟩,
          ⟨cleanUnfinished_fst_readyPieces s, cleanUnfinished_fst_completedLength s⟩⟩
  by_cases h1 : r.pieceResult.success = false
  · rw [reportPieceResult_failure s r h1]
    exact hinv
  · have h1' : r.pieceResult.success = true := by
      revert h1; cases r.pieceResult.success <;> simp
    by_cases h2 : s.readyPieces.IsSet r.pieceResult.pieceNum = true
    · rw [reportPieceResult_already_set s r h1' h2]
      exact hinv
    · have h2' : s.readyPieces.IsSet r.pieceResult.pieceNum = false :=
        Bool.eq_false_iff.mpr h2
      have hfst := reportPieceResult_new_fst s r h1' h2'
      have hmem : r.pieceResult.pieceNum ∉ s.readyPieces := by
        simpa [Bitmap.IsSet] using h2'
      unfold lengthInvariant
      rw [hfst.1, hfst.2, hinv, hsize]
      unfold Bitmap.Set
      rw [Finset.sum_insert hmem]
      ring

/-- C1 witness: the invariant holds in the fresh state with a constant size
assignment and is preserved by a successful report of piece 5. -/
theorem reportPieceResult_length_invariant_witness :
    lengthInvariant (fun _ => 7) sampleState
    ∧ lengthInvariant (fun _ => 7) (reportPieceResult sampleState reportPiece5).1 := by
  have h0 : lengthInvariant (fun _ => 7) sampleState := by
    simp [lengthInvariant, sampleState, newFilePeerTaskState, NewBitmap]
  exact ⟨h0,
    (reportPieceResult_length_invariant (fun _ => 7) sampleState reportPiece5 h0 rfl).1⟩

/-- C2: over any nonempty sequence of finish and cleanUnfinished calls starting
from a state whose one-shot has not fired, exactly one of the two bodies runs
and the done channel is closed exactly once, regardless of the number and
order of the calls. -/
theorem once_single_finalizer (s : TaskState) (hs : s.onceFired = false)
    (cs : List FinishCall) (hcs : cs ≠ []) :
    bodyRunCount (runFinishCalls s cs).2 = 1
    ∧ closeDoneCount (runFinishCalls s cs).2 = 1 := by
  rcases cs with _ | ⟨c, cs⟩
  · exact absurd rfl hcs
  · have h1 := runFinishCall_unfired s c hs
    have h2 := runFinishCalls_fired cs (runFinishCall s c).1 h1.2.2
    constructor
    · show bodyRunCount
        ((runFinishCall s c).2 ++ (runFinishCalls (runFinishCall s c).1 cs).2) = 1
      rw [h2.1, List.append_nil]
      exact h1.1
    · show closeDoneCount
        ((runFinishCall s c).2 ++ (runFinishCalls (runFinishCall s c).1 cs).2) = 1
      rw [h2.1, List.append_nil]
      exact h1.2.1

/-- C2 witness: calling finish, then cleanUnfinished, then finish again on a
fresh task runs exactly one body and closes done exactly once. -/
theorem once_single_finalizer_witness :
    sampleState.onceFired = false
    ∧ bodyRunCount
        (runFinishCalls sampleState
          [FinishCall.fin, FinishCall.clean, FinishCall.fin]).2 = 1
    ∧ closeDoneCount
        (runFinishCalls sampleState
          [FinishCall.fin, FinishCall.clean, FinishCall.fin]).2 = 1 := by
  have h := once_single_finalizer sampleState rfl
    [FinishCall.fin, FinishCall.clean, FinishCall.fin] (by simp)
  exact ⟨rfl, h.1, h.2⟩

/-- C5 counterexample: the PieceResult that preparePieceTasksByPeer sends after
a get-piece-task failure carries FinishedCount = -1, which differs from the
number of set bits of readyPieces (here 1), refuting the claim that every
PieceResult sent carries FinishedCount = ready count. -/
theorem preparePieceTasks_fail_finishedCount_cex :
    (getPieceTaskFailResult oneReadyState "dst" Code.ClientPieceRequestFail).finishedCount
      ≠ oneReadyState.readyPieces.Settled := by
  decide

/-- C5 amended: every PieceResult sent by ReportPieceResult (failure retry
reports, success reports, and the end sentinel sent via finish) carries
FinishedCount equal to the settled count of readyPieces at send time, and the
wait-piece-ready report also carries the settled count; the get-piece-task
failure report of preparePieceTasksByPeer instead carries the constant -1. -/
theorem reportPieceResult_finishedCount (s : TaskState) (r : PieceTaskResult) :
    (∀ pr, Event.send pr ∈ (reportPieceResult s r).2 →
        pr.finishedCount = (reportPieceResult s r).1.readyPieces.Settled)
    ∧ (∀ d, (waitPieceReadyResult s d).finishedCount = s.readyPieces.Settled)
    ∧ (∀ d c, (getPieceTaskFailResult s d c).finishedCount = -1) := by
  refine ⟨?_, fun d => rfl, fun d c => rfl⟩
  intro pr hpr
  by_cases h1 : r.pieceResult.success = false
  · rw [reportPieceResult_failure s r h1] at hpr ⊢
    simp only [List.mem_cons, List.not_mem_nil, or_false] at hpr
    rcases hpr with h | h
    · rcases Event.send.inj h with rfl
      rfl
    · exact absurd h (by simp)
  · have h1' : r.pieceResult.success = true := by
      revert h1; cases r.pieceResult.success <;> simp
    by_cases h2 : s.readyPieces.IsSet r.pieceResult.pieceNum = true
    · rw [reportPieceResult_already_set s r h1' h2] at hpr
      simp at hpr
    · have h2' : s.readyPieces.IsSet r.pieceResult.pieceNum = false :=
        Bool.eq_false_iff.mpr h2
      have hfst := (reportPieceResult_new_fst s r h1' h2').1
      rw [hfst]
      rcases reportPieceResult_new_snd s r h1' h2' with hsnd | hsnd <;>
        rw [hsnd] at hpr
      · simp only [List.mem_append, List.mem_cons, List.not_mem_nil, or_false] at hpr
        rcases hpr with (h | h) | h
        · rcases Event.send.inj h with rfl
          rfl
        · exact absurd h (by simp)
        · exact finish_send_finishedCount
            { s with
                readyPieces := s.readyPieces.Set r.pieceResult.pieceNum
                completedLength := s.completedLength + r.piece.rangeSize } pr h
      · simp only [List.mem_cons, List.not_mem_nil, or_false] at hpr
        rcases hpr with h | h
        · rcases Event.send.inj h with rfl
          rfl
        · exact absurd h (by simp)

/-- C5 amended witness: a concrete failed report for piece 2 on a task with one
ready piece sends exactly the result with FinishedCount 1 = settled count. -/
theorem reportPieceResult_finishedCount_witness :
    Event.send sentFailPiece2 ∈ (reportPieceResult oneReadyState failReportPiece2).2
    ∧ sentFailPiece2.finishedCount
        = (reportPieceResult oneReadyState failReportPiece2).1.readyPieces.Settled :=
  ⟨by decide,
   (reportPieceResult_finishedCount oneReadyState failReportPiece2).1
     sentFailPiece2 (by decide)⟩

/-- C8: reporting a successful piece result is idempotent per piece number —
with the ready bit already set the call changes no state and sends nothing —
and over any run of ReportPieceResult calls starting with the bit for a
(non-negative) piece number clear, at most one successful PieceResult for that
piece number is sent to the scheduler. -/
theorem reportPieceResult_success_once (n : Int) (hn : 0 ≤ n) (s : TaskState)
    (hset : s.readyPieces.IsSet n = false) (rs : List PieceTaskResult) :
    successSendCount n (runReports s rs).2 ≤ 1
    ∧ (∀ r, r.pieceResult.success = true →
        s.readyPieces.IsSet r.pieceResult.pieceNum = true →
        reportPieceResult s r = (s, [])) :=
  ⟨(successSendCount_run n hn rs s).2 hset,
   fun r h1 h2 => reportPieceResult_already_set s r h1 h2⟩

/-- C8 witness: running the same successful report for piece 5 twice from a
fresh task sends at most one successful result for piece 5. -/
theorem reportPieceResult_success_once_witness :
    (0 : Int) ≤ 5
    ∧ sampleState.readyPieces.IsSet 5 = false
    ∧ successSendCount 5 (runReports sampleState [reportPiece5, reportPiece5]).2 ≤ 1 := by
  have h := reportPieceResult_success_once 5 (by decide) sampleState (by decide)
    [reportPiece5, reportPiece5]
  exact ⟨by decide, by decide, h.1⟩

end Dragonfly
